import Mathlib

/-!
Verification development for the IT-Admin task-orchestration engine
(`src/itadmin_agent`).  The Python code is shallowly embedded: the task
store, the per-task worker loop of `AgentOrchestrator._execute_task`, the
planner fallback of `TaskPlanner.create_plan`, and the plan-reuse
similarity of `TaskManagerAgent._parameter_similarity` are translated into
executable Lean definitions, and the spec's claims are settled as theorems
about those definitions.

Modelling conventions:
* Python `raise` / `except` becomes `Except PyErr` (KeyError ≙ NotFound,
  ValueError ≙ InvalidState / InvalidStatus) or, inside the worker, an
  explicit outcome value.
* Task and step statuses are the literal strings stored by the code.
* Timestamps (`created_at` / `updated_at`) are elided: no claim mentions
  them and they carry no other information.
* Concurrency is resolved by an oracle (`StepEnv` / `WorkerEnv`): for each
  loop iteration it records what the worker's status poll observed
  (cancellation at the loop head, and the outcome of the approval wait),
  and what the dispatched agent did (returned a `StepResult`, or raised).
-/

namespace ITAdmin

/-- Parameter values are opaque data compared only for equality
(`Dict[str, Any]` in the source); an opaque token type suffices. -/
abbrev PVal := String

/-- The legal task-status strings, the members of the Python `TaskStatus`
enum in `orchestrator.py`. -/
def taskStatusValues : List String :=
  ["pending", "planning", "executing", "succeeded", "failed", "cancelled",
   "waiting_for_approval"]

/-- The result dictionary returned by an agent's `execute_step`
(`{"status": ..., "message": ..., "details": ...}`); `details` is opaque
and elided. -/
structure StepResult where
  status : String
  message : String
  deriving DecidableEq

/-- A step record as created by `AgentOrchestrator.add_task_step` and
mutated by `update_task_step` (timestamps elided). -/
structure StepRec where
  description : String
  status : String
  result : Option StepResult
  error : Option String
  deriving DecidableEq

/-- A task record as created by `AgentOrchestrator.create_task`
(timestamps elided; the task-level `result` payload is opaque). -/
structure TaskState where
  id : String
  ttype : String
  description : String
  parameters : List (String × PVal)
  priority : String
  status : String
  steps : List StepRec
  result : Option String
  error : Option String
  deriving DecidableEq

/-- The task dictionary inserted by `create_task`: status `pending`, no
steps, no result, no error. -/
def initTask (id ttype description : String) (parameters : List (String × PVal))
    (priority : String) : TaskState :=
  { id := id, ttype := ttype, description := description,
    parameters := parameters, priority := priority, status := "pending",
    steps := [], result := none, error := none }

/-- Python exceptions crossing the orchestrator's public boundary. -/
inductive PyErr where
  | keyError (msg : String)
  | valueError (msg : String)
  | indexError (msg : String)
  deriving DecidableEq

/-- The orchestrator's task store: the `self.tasks` map plus the
`self.active_tasks` thread registry (threads themselves elided; only the
key set matters to the modelled operations). -/
structure Store where
  tasks : List (String × TaskState)
  active : List String
  deriving DecidableEq

/-- Replace the record stored under `id` (plain dict assignment). -/
def setTask (s : Store) (id : String) (t : TaskState) : Store :=
  { s with tasks := s.tasks.map (fun kv => if kv.1 = id then (id, t) else kv) }

/-- `AgentOrchestrator.update_task_status`: validates the status string
against the `TaskStatus` enum (ValueError), requires the task to exist
(KeyError), then overwrites the status field unconditionally. -/
def update_task_status (s : Store) (id status : String) : Except PyErr Store :=
  if status ∈ taskStatusValues then
    match s.tasks.lookup id with
    | none => .error (.keyError ("Task " ++ id ++ " not found"))
    | some t => .ok (setTask s id { t with status := status })
  else .error (.valueError ("Invalid task status: " ++ status))

/-- `AgentOrchestrator.approve_task`: KeyError for an unknown id,
ValueError unless the status is exactly `waiting_for_approval`, otherwise
resumes the task by setting the status to `executing`. -/
def approve_task (s : Store) (id : String) : Except PyErr Store :=
  match s.tasks.lookup id with
  | none => .error (.keyError ("Task " ++ id ++ " not found"))
  | some t =>
    if t.status == "waiting_for_approval" then
      update_task_status s id "executing"
    else .error (.valueError ("Task " ++ id ++ " is not waiting for approval"))

/-- `AgentOrchestrator.cancel_task`: KeyError for an unknown id, otherwise
sets the status to `cancelled` unconditionally (no check of the current
status) and drops the id from the active-task registry. -/
def cancel_task (s : Store) (id : String) : Except PyErr Store :=
  match s.tasks.lookup id with
  | none => .error (.keyError ("Task " ++ id ++ " not found"))
  | some _ =>
    match update_task_status s id "cancelled" with
    | .ok s1 => .ok { s1 with active := s1.active.filter (fun a => a != id) }
    | .error e => .error e

/-! Helper lemmas about `setTask` and `lookup`. -/

theorem lookup_setTask_self (tasks : List (String × TaskState)) (id : String)
    (t t' : TaskState) (h : tasks.lookup id = some t) :
    (tasks.map (fun kv => if kv.1 = id then (id, t') else kv)).lookup id = some t' := by
  induction tasks with
  | nil => simp [List.lookup] at h
  | cons kv rest ih =>
    rcases kv with ⟨k, v⟩
    by_cases hk : k = id
    · subst hk
      simp only [List.map_cons, if_pos rfl]
      simp [List.lookup]
    · have hb2 : (id == k) = false := beq_eq_false_iff_ne.mpr (Ne.symm hk)
      simp only [List.lookup, hb2] at h
      simp only [List.map_cons, if_neg hk]
      simpa [List.lookup, hb2] using ih h

theorem store_lookup_setTask_self (s : Store) (id : String) (t t' : TaskState)
    (h : s.tasks.lookup id = some t) :
    (setTask s id t').tasks.lookup id = some t' :=
  lookup_setTask_self s.tasks id t t' h

/-- C8: `approve_task` moves a task to `executing` exactly when its current
status is `waiting_for_approval`; on any other status it raises ValueError
(the spec's InvalidState) — and since the exception is raised before any
mutation, the store and hence the task's status are untouched — and on an
unknown id it raises KeyError (the spec's NotFound).  From
`AgentOrchestrator.approve_task`. -/
theorem approve_task_spec (s : Store) (id : String) :
    (s.tasks.lookup id = none → ∃ m, approve_task s id = .error (.keyError m)) ∧
    (∀ t, s.tasks.lookup id = some t →
      (t.status = "waiting_for_approval" →
        approve_task s id = .ok (setTask s id { t with status := "executing" }) ∧
        (setTask s id { t with status := "executing" }).tasks.lookup id =
          some { t with status := "executing" }) ∧
      (t.status ≠ "waiting_for_approval" →
        ∃ m, approve_task s id = .error (.valueError m))) := by
  refine ⟨fun h => ⟨"Task " ++ id ++ " not found", by simp [approve_task, h]⟩,
    fun t ht => ⟨fun hw => ⟨?_, ?_⟩,
      fun hw => ⟨"Task " ++ id ++ " is not waiting for approval",
        by simp [approve_task, ht, beq_eq_false_iff_ne.mpr hw]⟩⟩⟩
  · simp [approve_task, ht, hw, update_task_status, taskStatusValues]
  · exact store_lookup_setTask_self s id t _ ht

/-- Witness for `approve_task_spec` at a concrete store: a waiting task is
resumed to `executing`, and approving an `executing` task fails with
ValueError. -/
theorem approve_task_spec_witness :
    (approve_task
        { tasks := [("t1", { initTask "t1" "demo" "x" [] "low" with
                             status := "waiting_for_approval" })], active := ["t1"] }
        "t1").isOk = true ∧
    (∃ m, approve_task
        { tasks := [("t2", { initTask "t2" "demo" "x" [] "low" with
                             status := "executing" })], active := ["t2"] }
        "t2" = .error (.valueError m)) := by
  constructor
  · have h := (approve_task_spec
        { tasks := [("t1", { initTask "t1" "demo" "x" [] "low" with
                             status := "waiting_for_approval" })], active := ["t1"] }
        "t1").2 _ rfl
    rw [(h.1 rfl).1]
    rfl
  · exact (approve_task_spec
        { tasks := [("t2", { initTask "t2" "demo" "x" [] "low" with
                             status := "executing" })], active := ["t2"] }
        "t2").2 _ rfl |>.2 (by decide)

/-- A task already in the terminal status `succeeded`. -/
def c2Task : TaskState := { initTask "t1" "demo" "x" [] "low" with status := "succeeded" }

/-- A store holding only `c2Task`. -/
def c2Store : Store := { tasks := [("t1", c2Task)], active := [] }

/-- C2 counterexample: `cancel_task` moves a task out of the terminal state
`succeeded`: on a store whose only task has status `succeeded`, `cancel_task`
succeeds and the stored status afterwards is `cancelled` — the transition
`succeeded → cancelled` leaves a terminal state, refuting the claim that no
operation ever does so.  From `AgentOrchestrator.cancel_task`, which calls
`update_task_status(..., CANCELLED)` unconditionally. -/
theorem cancel_task_terminal_counterexample :
    c2Task.status = "succeeded" ∧
    cancel_task c2Store "t1" =
      .ok { tasks := [("t1", { c2Task with status := "cancelled" })], active := [] } := by
  constructor <;> rfl

/-- C2 amended: for every stored task, `cancel_task` succeeds and sets the
status to `cancelled` unconditionally — including from the terminal states
`succeeded`, `failed` and `cancelled` — so terminal states are not
absorbing under `cancel_task`; `approve_task`, by contrast, rejects every
terminal-state task with ValueError and leaves it unchanged. -/
theorem cancel_task_unconditional (s : Store) (id : String) (t : TaskState)
    (h : s.tasks.lookup id = some t)
    (hterm : t.status ∈ (["succeeded", "failed", "cancelled"] : List String)) :
    (∃ s1, cancel_task s id = .ok s1 ∧
      s1.tasks.lookup id = some { t with status := "cancelled" }) ∧
    (∃ m, approve_task s id = .error (.valueError m)) := by
  have hne : t.status ≠ "waiting_for_approval" := by
    rcases (by simpa using hterm :
        t.status = "succeeded" ∨ t.status = "failed" ∨ t.status = "cancelled") with
      h1 | h1 | h1 <;> simp [h1]
  refine ⟨⟨{ setTask s id { t with status := "cancelled" } with
             active := s.active.filter (fun a => a != id) }, ?_, ?_⟩,
    ⟨"Task " ++ id ++ " is not waiting for approval",
      by simp [approve_task, h, beq_eq_false_iff_ne.mpr hne]⟩⟩
  · simp only [cancel_task, h, update_task_status, taskStatusValues]
    norm_num
    rfl
  · exact store_lookup_setTask_self s id t _ h

/-- Witness for `cancel_task_unconditional` at the concrete `c2Store`. -/
theorem cancel_task_unconditional_witness :
    (∃ s1, cancel_task c2Store "t1" = .ok s1 ∧
      s1.tasks.lookup "t1" = some { c2Task with status := "cancelled" }) ∧
    (∃ m, approve_task c2Store "t1" = .error (.valueError m)) :=
  cancel_task_unconditional c2Store "t1" c2Task rfl (by decide)

/-! ### Reference semantics of `get_task` / `get_all_tasks` (claim C3)

`AgentOrchestrator.get_task` returns `self.tasks[task_id].copy()` — a
Python `dict.copy()`, i.e. a *shallow* copy: the top-level key/value pairs
are copied, but the value stored under `"steps"` is the very same list
object.  To make this observable in a pure embedding, the steps list of
each task lives in an explicit heap of list objects and the task dict
holds a reference (`stepsRef`) into that heap; `dict.copy()` then copies
the reference, not the list. -/

/-- A task dict as seen through the reference model: the scalar fields are
by-value, the steps list is a heap reference. -/
structure PyTaskObj where
  id : String
  status : String
  result : Option String
  error : Option String
  stepsRef : Nat
  deriving DecidableEq

/-- The task store with the heap of steps-list objects made explicit. -/
structure RefStore where
  tasks : List (String × PyTaskObj)
  heap : List (List StepRec)
  deriving DecidableEq

/-- Dereference a steps-list object. -/
def heapRead (h : List (List StepRec)) (r : Nat) : List StepRec :=
  (h[r]?).getD []

/-- Destructively overwrite a steps-list object (a mutation performed
through any reference to it). -/
def heapWrite (h : List (List StepRec)) (r : Nat) (l : List StepRec) :
    List (List StepRec) :=
  h.set r l

/-- `AgentOrchestrator.get_task`: KeyError for an unknown id, otherwise
`self.tasks[task_id].copy()` — the returned dict duplicates the top-level
fields, so it is the same `PyTaskObj` value, `stepsRef` included. -/
def RefStore.get_task (s : RefStore) (id : String) : Except PyErr PyTaskObj :=
  match s.tasks.lookup id with
  | none => .error (.keyError ("Task " ++ id ++ " not found"))
  | some t => .ok t

/-- `AgentOrchestrator.get_all_tasks` without a status filter:
`[task.copy() for task in self.tasks.values()]`. -/
def RefStore.get_all_tasks (s : RefStore) : List PyTaskObj :=
  s.tasks.map Prod.snd

/-- The steps of the task stored under `id`, as the store itself observes
them (dereferencing the stored task's `stepsRef`). -/
def stepsView (s : RefStore) (id : String) : Option (List StepRec) :=
  (s.tasks.lookup id).map (fun t => heapRead s.heap t.stepsRef)

/-- A one-step task for the C3 counterexample. -/
def c3Step : StepRec :=
  { description := "step one", status := "pending", result := none, error := none }

/-- The stored task dict of the C3 counterexample. -/
def c3Obj : PyTaskObj :=
  { id := "t1", status := "executing", result := none, error := none, stepsRef := 0 }

/-- The store of the C3 counterexample: one task whose steps list lives at
heap address 0. -/
def c3Store : RefStore := { tasks := [("t1", c3Obj)], heap := [[c3Step]] }

/-- C3 counterexample: the value returned by `get_task` shares its nested
steps list with the store.  Mutating a step record purely through the
returned copy — writing through its `stepsRef`, exactly what
`copy["steps"][0]["status"] = "failed"` does in Python — changes the steps
the store itself observes for task `t1` from the pending step to the
failed one, refuting the claim that mutating any part of the returned
value has no effect on stored state. -/
theorem get_task_shallow_copy_counterexample :
    RefStore.get_task c3Store "t1" = .ok c3Obj ∧
    stepsView c3Store "t1" = some [c3Step] ∧
    stepsView
      { c3Store with
        heap := heapWrite c3Store.heap c3Obj.stepsRef
          [{ c3Step with status := "failed" }] } "t1" =
      some [{ c3Step with status := "failed" }] := by
  refine ⟨rfl, rfl, rfl⟩

/-- C3 amended: `get_task` returns a *shallow* copy — rebinding top-level
fields of the returned dict cannot reach the store (the copy is an
independent top-level record), but the nested steps list is shared by
reference: the returned value carries the stored task's `stepsRef`
unchanged, and writing any list through that reference is seen by the
store as the new steps of that task.  `get_all_tasks` returns the same
shallow copies, one per stored task. -/
theorem get_task_shallow_copy (s : RefStore) (id : String) (t : PyTaskObj)
    (h : s.tasks.lookup id = some t) (hr : t.stepsRef < s.heap.length) :
    RefStore.get_task s id = .ok t ∧
    (∀ l : List StepRec,
      stepsView { s with heap := heapWrite s.heap t.stepsRef l } id = some l) ∧
    RefStore.get_all_tasks s = s.tasks.map Prod.snd := by
  refine ⟨by simp [RefStore.get_task, h], fun l => ?_, rfl⟩
  simp [stepsView, h, heapRead, heapWrite, List.getElem?_set_self, hr]

/-- Witness for `get_task_shallow_copy` at the concrete `c3Store`. -/
theorem get_task_shallow_copy_witness :
    RefStore.get_task c3Store "t1" = .ok c3Obj ∧
    (∀ l : List StepRec,
      stepsView { c3Store with heap := heapWrite c3Store.heap c3Obj.stepsRef l } "t1" =
        some l) ∧
    RefStore.get_all_tasks c3Store = c3Store.tasks.map Prod.snd :=
  get_task_shallow_copy c3Store "t1" c3Obj rfl (by decide)

/-! ### The per-task worker (`AgentOrchestrator._execute_task`)

One thread per task runs `_execute_task`: set `planning`, obtain a plan,
append one pending step per plan step, set `executing`, then iterate the
plan.  Each iteration polls the store for cancellation, sets the step to
`executing`, optionally suspends for approval, dispatches the step to the
agent registry, and records the outcome.  The interleaving with the rest
of the system is captured by an oracle: for each step index it fixes what
the cancellation poll saw, how an approval wait was resolved, and what the
dispatched agent did. -/

/-- A step specification inside a plan (`TaskStep` in `planner.py`):
`agent_type` is resolved with the code's `.get('agent_type', 'execution')`
default at plan-construction time. -/
structure PlanStep where
  description : String
  agentType : String
  requiresApproval : Bool
  critical : Bool
  parameters : List (String × PVal)
  deriving DecidableEq

/-- A plan (`TaskPlan` in `planner.py`). -/
structure Plan where
  taskId : String
  summary : String
  steps : List PlanStep
  deriving DecidableEq

/-- The agent registry is consulted only through key membership; the five
keys of `AgentOrchestrator.agents`. -/
abbrev Registry := List String

/-- The registry built in `AgentOrchestrator.__init__`. -/
def defaultRegistry : Registry :=
  ["task_manager", "diagnostics", "execution", "learning", "validation"]

/-- How an approval wait ended: the poll loop leaves only when the stored
status becomes `executing` (someone approved) or `cancelled`. -/
inductive ApprovalOutcome where
  | approved
  | cancelledDuringWait
  deriving DecidableEq

/-- The oracle for one loop iteration: what the cancellation poll at the
loop head observed, how an approval wait (if entered) was resolved, and
the agent's behaviour — `Except.error msg` models `execute_step` raising,
`Except.ok r` models it returning the result dict `r`. -/
structure StepEnv where
  cancelledBefore : Bool
  approval : ApprovalOutcome
  exec : Except String StepResult

/-- The oracle for a whole worker run: the outcome of
`task_manager.plan_task` (which may raise), the per-iteration oracles, and
whether `learning_agent.learn_from_task` raises. -/
structure WorkerEnv where
  planOutcome : Except String Plan
  stepEnv : Nat → StepEnv
  learnError : Option String

/-- Update the `i`-th element of a steps list in place (the effect of
`update_task_step` on the stored list). -/
def modifySteps : List StepRec → Nat → (StepRec → StepRec) → List StepRec
  | [], _, _ => []
  | s :: rest, 0, f => f s :: rest
  | s :: rest, Nat.succ i, f => s :: modifySteps rest i f

/-- Update the `i`-th step of a task. -/
def setStep (ts : TaskState) (i : Nat) (f : StepRec → StepRec) : TaskState :=
  { ts with steps := modifySteps ts.steps i f }

/-- The step record appended by `add_task_step` for a planned step. -/
def mkPendingStep (d : String) : StepRec :=
  { description := d, status := "pending", result := none, error := none }

/-- Append one pending step per plan step (the `add_task_step` loop). -/
def appendPlanSteps (ts : TaskState) (ps : List PlanStep) : TaskState :=
  { ts with steps := ts.steps ++ ps.map (fun p => mkPendingStep p.description) }

/-- What the dispatch `agent = self.agents[agent_type]; agent.execute_step(...)`
produces: a KeyError if the agent type is not registered, otherwise
whatever the agent did.  Python renders the KeyError for key `k` as the
quoted key; we render it as `KeyError: k`. -/
def dispatchOutcome (registry : Registry) (p : PlanStep) (se : StepEnv) :
    Except String StepResult :=
  if p.agentType ∈ registry then se.exec else .error ("KeyError: " ++ p.agentType)

/-- What the per-step `try` block decides after recording the outcome. -/
inductive StepVerdict where
  | recorded
  | failedContinue
  | failedBreak
  deriving DecidableEq

/-- The body of the per-step `try`/`except` (orchestrator lines 476-501):
if `execute_step` returns a result — whatever its `status` field says —
the step is recorded `succeeded` with that result; if the dispatch raises,
the step is recorded `failed` with the exception text, and a `critical`
step additionally breaks out of the loop. -/
def dispatchStep (registry : Registry) (p : PlanStep) (se : StepEnv) (i : Nat)
    (ts : TaskState) : TaskState × StepVerdict :=
  match dispatchOutcome registry p se with
  | .ok r =>
    (setStep ts i (fun s => { s with status := "succeeded", result := some r }), .recorded)
  | .error e =>
    let ts1 := setStep ts i (fun s => { s with status := "failed", error := some e })
    if p.critical then (ts1, .failedBreak) else (ts1, .failedContinue)

/-- The approval gate before dispatch: if the step requires approval the
task is parked at `waiting_for_approval` and the worker polls until the
store shows `executing` (approved: proceed) or `cancelled` (stop; the
`Except.error` carries the state at which the worker returns). -/
def stepApproval (se : StepEnv) (p : PlanStep) (ts : TaskState) :
    Except TaskState TaskState :=
  if p.requiresApproval then
    let tsW := { ts with status := "waiting_for_approval" }
    match se.approval with
    | .approved => .ok { tsW with status := "executing" }
    | .cancelledDuringWait => .error { tsW with status := "cancelled" }
  else .ok ts

/-- How the step loop ended: an early `return` upon observing cancellation
(no further side effects), or fall-through to the code after the loop with
the final value of the `success` flag. -/
inductive LoopResult where
  | cancelledReturn (ts : TaskState)
  | finished (ts : TaskState) (success : Bool)
  deriving DecidableEq

/-- The `for i, step in enumerate(task_plan['steps'])` loop.  `i` is the
absolute index of the first remaining step; `success` is the loop's
running flag. -/
def runSteps (registry : Registry) (env : Nat → StepEnv) :
    List PlanStep → Nat → TaskState → Bool → LoopResult
  | [], _, ts, success => .finished ts success
  | p :: rest, i, ts, success =>
    if (env i).cancelledBefore then
      .cancelledReturn { ts with status := "cancelled" }
    else
      let ts1 := setStep ts i (fun s => { s with status := "executing" })
      match stepApproval (env i) p ts1 with
      | .error tsC => .cancelledReturn tsC
      | .ok ts2 =>
        match dispatchStep registry p (env i) i ts2 with
        | (ts3, .recorded) => runSteps registry env rest (i + 1) ts3 success
        | (ts3, .failedContinue) => runSteps registry env rest (i + 1) ts3 false
        | (ts3, .failedBreak) => .finished ts3 false

/-- The task state at the moment the loop starts: `planning`, then the
planned steps appended as pending, then `executing`. -/
def startedTask (ts0 : TaskState) (plan : Plan) : TaskState :=
  { appendPlanSteps { ts0 with status := "planning" } plan.steps with status := "executing" }

/-- `AgentOrchestrator._execute_task`.  The outer `try` catches every
exception (a raising planner, or a raising `learn_from_task`), records it
with `add_task_error` and forces the status to `failed`.  After a normal
loop exit the final status is `succeeded` iff the `success` flag survived,
and only then is the learning agent invoked. -/
def executeTask (registry : Registry) (env : WorkerEnv) (ts0 : TaskState) : TaskState :=
  match env.planOutcome with
  | .error e => { ts0 with status := "failed", error := some e }
  | .ok plan =>
    match runSteps registry env.stepEnv plan.steps 0 (startedTask ts0 plan) true with
    | .cancelledReturn tsC => tsC
    | .finished tsF success =>
      if success then
        match env.learnError with
        | none => { tsF with status := "succeeded" }
        | some e => { { tsF with status := "succeeded" } with
                      status := "failed", error := some e }
      else { tsF with status := "failed" }

/-! ### Basic lemmas about step-list surgery and single loop iterations. -/

theorem modifySteps_getElem?_ne :
    ∀ (l : List StepRec) (i j : Nat) (f : StepRec → StepRec), j ≠ i →
      (modifySteps l i f)[j]? = l[j]?
  | [], _, _, _, _ => rfl
  | s :: rest, 0, 0, f, h => absurd rfl h
  | s :: rest, 0, j + 1, f, _ => by simp [modifySteps]
  | s :: rest, i + 1, 0, f, _ => by simp [modifySteps]
  | s :: rest, i + 1, j + 1, f, h => by
    simp only [modifySteps, List.getElem?_cons_succ]
    exact modifySteps_getElem?_ne rest i j f (fun hj => h (congrArg Nat.succ hj))

theorem modifySteps_getElem?_self :
    ∀ (l : List StepRec) (i : Nat) (f : StepRec → StepRec),
      (modifySteps l i f)[i]? = (l[i]?).map f
  | [], i, f => by cases i <;> simp [modifySteps]
  | s :: rest, 0, f => by simp [modifySteps]
  | s :: rest, i + 1, f => by
    simp only [modifySteps, List.getElem?_cons_succ]
    exact modifySteps_getElem?_self rest i f

/-- The task state after a loop iteration whose dispatch returned `r`:
step `i` set to `executing`, the optional approval round-trip, then step
`i` recorded `succeeded` with result `r`. -/
def okStepState (p : PlanStep) (i : Nat) (ts : TaskState) (r : StepResult) : TaskState :=
  let ts1 := setStep ts i (fun s => { s with status := "executing" })
  let ts2 := if p.requiresApproval then
      { { ts1 with status := "waiting_for_approval" } with status := "executing" }
    else ts1
  setStep ts2 i (fun s => { s with status := "succeeded", result := some r })

/-- The task state after a loop iteration whose dispatch raised `e`:
as `okStepState` but step `i` recorded `failed` with error `e`. -/
def errStepState (p : PlanStep) (i : Nat) (ts : TaskState) (e : String) : TaskState :=
  let ts1 := setStep ts i (fun s => { s with status := "executing" })
  let ts2 := if p.requiresApproval then
      { { ts1 with status := "waiting_for_approval" } with status := "executing" }
    else ts1
  setStep ts2 i (fun s => { s with status := "failed", error := some e })

/-- The task state at which a worker cancelled during an approval wait
returns: step `i` still `executing`, task status `cancelled` (written by
`cancel_task` and observed by the poll). -/
def waitCancelState (i : Nat) (ts : TaskState) : TaskState :=
  { setStep ts i (fun s => { s with status := "executing" }) with status := "cancelled" }

theorem okStepState_steps_ne (p : PlanStep) (i : Nat) (ts : TaskState)
    (r : StepResult) (j : Nat) (h : j ≠ i) :
    (okStepState p i ts r).steps[j]? = ts.steps[j]? := by
  by_cases hp : p.requiresApproval <;>
    simp [okStepState, hp, setStep, modifySteps_getElem?_ne _ _ _ _ h]

theorem okStepState_result (p : PlanStep) (i : Nat) (ts : TaskState) (r : StepResult) :
    (okStepState p i ts r).result = ts.result := by
  by_cases hp : p.requiresApproval <;> simp [okStepState, hp, setStep]

theorem errStepState_steps_ne (p : PlanStep) (i : Nat) (ts : TaskState)
    (e : String) (j : Nat) (h : j ≠ i) :
    (errStepState p i ts e).steps[j]? = ts.steps[j]? := by
  by_cases hp : p.requiresApproval <;>
    simp [errStepState, hp, setStep, modifySteps_getElem?_ne _ _ _ _ h]

theorem errStepState_steps_self (p : PlanStep) (i : Nat) (ts : TaskState) (e : String) :
    (errStepState p i ts e).steps[i]? =
      (ts.steps[i]?).map (fun s =>
        { { s with status := "executing" } with status := "failed", error := some e }) := by
  by_cases hp : p.requiresApproval <;>
    simp [errStepState, hp, setStep, modifySteps_getElem?_self] <;>
    cases ts.steps[i]? <;> rfl

/-- One loop iteration, cancellation observed at the loop head. -/
theorem runSteps_cons_cancelled (registry : Registry) (env : Nat → StepEnv)
    (p : PlanStep) (rest : List PlanStep) (i : Nat) (ts : TaskState) (succ : Bool)
    (hc : (env i).cancelledBefore = true) :
    runSteps registry env (p :: rest) i ts succ =
      .cancelledReturn { ts with status := "cancelled" } := by
  unfold runSteps
  rw [hc]
  simp

/-- One loop iteration, no cancellation, approval (if any) granted,
dispatch returned `r`. -/
theorem runSteps_cons_ok (registry : Registry) (env : Nat → StepEnv)
    (p : PlanStep) (rest : List PlanStep) (i : Nat) (ts : TaskState) (succ : Bool)
    (r : StepResult)
    (hc : (env i).cancelledBefore = false)
    (ha : (env i).approval = .approved)
    (hd : dispatchOutcome registry p (env i) = .ok r) :
    runSteps registry env (p :: rest) i ts succ =
      runSteps registry env rest (i + 1) (okStepState p i ts r) succ := by
  conv_lhs => unfold runSteps
  rw [hc]
  by_cases hp : p.requiresApproval <;>
    simp [stepApproval, hp, ha, dispatchStep, hd, okStepState]

/-- One loop iteration, no cancellation, approval (if any) granted,
dispatch raised `e`, step not critical: record and continue with
`success = False`. -/
theorem runSteps_cons_err_continue (registry : Registry) (env : Nat → StepEnv)
    (p : PlanStep) (rest : List PlanStep) (i : Nat) (ts : TaskState) (succ : Bool)
    (e : String)
    (hc : (env i).cancelledBefore = false)
    (ha : (env i).approval = .approved)
    (hd : dispatchOutcome registry p (env i) = .error e)
    (hcrit : p.critical = false) :
    runSteps registry env (p :: rest) i ts succ =
      runSteps registry env rest (i + 1) (errStepState p i ts e) false := by
  conv_lhs => unfold runSteps
  rw [hc]
  by_cases hp : p.requiresApproval <;>
    simp [stepApproval, hp, ha, dispatchStep, hd, hcrit, errStepState]

/-- One loop iteration, no cancellation, approval (if any) granted,
dispatch raised `e`, step critical: record and break out of the loop. -/
theorem runSteps_cons_err_break (registry : Registry) (env : Nat → StepEnv)
    (p : PlanStep) (rest : List PlanStep) (i : Nat) (ts : TaskState) (succ : Bool)
    (e : String)
    (hc : (env i).cancelledBefore = false)
    (ha : (env i).approval = .approved)
    (hd : dispatchOutcome registry p (env i) = .error e)
    (hcrit : p.critical = true) :
    runSteps registry env (p :: rest) i ts succ =
      .finished (errStepState p i ts e) false := by
  conv_lhs => unfold runSteps
  rw [hc]
  by_cases hp : p.requiresApproval <;>
    simp [stepApproval, hp, ha, dispatchStep, hd, hcrit, errStepState]

/-- One loop iteration, no cancellation at the head, approval required,
cancellation observed during the approval wait: the worker returns. -/
theorem runSteps_cons_wait_cancelled (registry : Registry) (env : Nat → StepEnv)
    (p : PlanStep) (rest : List PlanStep) (i : Nat) (ts : TaskState) (succ : Bool)
    (hc : (env i).cancelledBefore = false)
    (hp : p.requiresApproval = true)
    (ha : (env i).approval = .cancelledDuringWait) :
    runSteps registry env (p :: rest) i ts succ =
      .cancelledReturn (waitCancelState i ts) := by
  conv_lhs => unfold runSteps
  rw [hc]
  simp [stepApproval, hp, ha, waitCancelState]

/-- Running the loop over a prefix of `k` iterations that observe no
cancellation, get their approvals, and whose dispatches all return: the
loop reaches index `k` with the `success` flag intact, having touched only
the step records below `k` and never the task-level result. -/
theorem runSteps_prefix (registry : Registry) (env : Nat → StepEnv) :
    ∀ (k : Nat) (ps : List PlanStep) (i : Nat) (ts : TaskState) (succ : Bool),
    k ≤ ps.length →
    (∀ m, m < k → (env (i + m)).cancelledBefore = false) →
    (∀ m, m < k → (env (i + m)).approval = .approved) →
    (∀ m p, m < k → ps[m]? = some p →
      ∃ r, dispatchOutcome registry p (env (i + m)) = .ok r) →
    ∃ ts1, runSteps registry env ps i ts succ =
        runSteps registry env (ps.drop k) (i + k) ts1 succ ∧
      (∀ j, i + k ≤ j → ts1.steps[j]? = ts.steps[j]?) ∧
      ts1.result = ts.result := by
  intro k
  induction k with
  | zero =>
    intro ps i ts succ _ _ _ _
    exact ⟨ts, by simp, fun j _ => rfl, rfl⟩
  | succ k ih =>
    intro ps i ts succ hlen hcancel happr hdisp
    match ps with
    | [] => simp at hlen
    | p :: rest =>
      have hc0 : (env i).cancelledBefore = false := by
        have := hcancel 0 (Nat.succ_pos k)
        simpa using this
      have ha0 : (env i).approval = .approved := by
        have := happr 0 (Nat.succ_pos k)
        simpa using this
      obtain ⟨r, hd0⟩ := hdisp 0 p (Nat.succ_pos k) (by simp)
      rw [runSteps_cons_ok registry env p rest i ts succ r hc0
        (by simpa using ha0) (by simpa using hd0)]
      obtain ⟨ts1, heq, hsteps, hres⟩ := ih rest (i + 1) (okStepState p i ts r) succ
        (by simpa using Nat.succ_le_succ_iff.mp hlen)
        (fun m hm => by
          have := hcancel (m + 1) (Nat.succ_lt_succ hm)
          rwa [show i + (m + 1) = i + 1 + m by omega] at this)
        (fun m hm => by
          have := happr (m + 1) (Nat.succ_lt_succ hm)
          rwa [show i + (m + 1) = i + 1 + m by omega] at this)
        (fun m q hm hq => by
          have := hdisp (m + 1) q (Nat.succ_lt_succ hm) (by simpa using hq)
          rwa [show i + (m + 1) = i + 1 + m by omega] at this)
      refine ⟨ts1, ?_, ?_, ?_⟩
      · rw [heq]
        congr 1
        omega
      · intro j hj
        have h1 : ts1.steps[j]? = (okStepState p i ts r).steps[j]? :=
          hsteps j (by omega)
        rw [h1, okStepState_steps_ne p i ts r j (by omega)]
      · rw [hres, okStepState_result]

/-- A worker that returns early has observed — and therefore leaves — the
stored status `cancelled`. -/
theorem runSteps_cancelledReturn_status (registry : Registry) (env : Nat → StepEnv) :
    ∀ (ps : List PlanStep) (i : Nat) (ts : TaskState) (succ : Bool) (t : TaskState),
      runSteps registry env ps i ts succ = .cancelledReturn t → t.status = "cancelled" := by
  intro ps
  induction ps with
  | nil =>
    intro i ts succ t h
    simp [runSteps] at h
  | cons p rest ih =>
    intro i ts succ t h
    simp only [runSteps] at h
    split at h
    · cases h
      rfl
    · split at h
      · rename_i tsC hap
        cases h
        simp only [stepApproval] at hap
        split at hap
        · split at hap
          · cases hap
          · cases hap
            rfl
        · cases hap
      · rename_i ts2 hap
        split at h
        · rename_i ts3 hds
          exact ih (i + 1) ts3 succ t h
        · rename_i ts3 hds
          exact ih (i + 1) ts3 false t h
        · rename_i ts3 hds
          cases h

/-- Whatever the oracle does, the worker drives its task to one of the
three terminal statuses (every approval wait is assumed to be resolved
eventually, which is what the oracle encodes). -/
theorem executeTask_terminal (registry : Registry) (env : WorkerEnv) (ts0 : TaskState) :
    (executeTask registry env ts0).status ∈
      (["succeeded", "failed", "cancelled"] : List String) := by
  rcases hp : env.planOutcome with e | plan
  · simp [executeTask, hp]
  · rcases hr : runSteps registry env.stepEnv plan.steps 0 (startedTask ts0 plan) true with
      tsC | ⟨tsF, success⟩
    · have := runSteps_cancelledReturn_status registry env.stepEnv plan.steps 0
        (startedTask ts0 plan) true tsC hr
      simp [executeTask, hp, hr, this]
    · cases success
      · simp [executeTask, hp, hr]
      · rcases hl : env.learnError with _ | e <;> simp [executeTask, hp, hr, hl]

/-- Shared lemma: what `dispatchStep` writes into step `i`: a returned
result is recorded as `succeeded` with that result; a raised exception is
recorded as `failed` with its text. -/
theorem dispatchStep_record (registry : Registry) (p : PlanStep) (se : StepEnv)
    (i : Nat) (ts : TaskState) (s0 : StepRec) (h : ts.steps[i]? = some s0) :
    (∀ r, dispatchOutcome registry p se = .ok r →
      (dispatchStep registry p se i ts).1.steps[i]? =
        some { s0 with status := "succeeded", result := some r }) ∧
    (∀ e, dispatchOutcome registry p se = .error e →
      (dispatchStep registry p se i ts).1.steps[i]? =
        some { s0 with status := "failed", error := some e }) := by
  constructor
  · intro r hr
    simp [dispatchStep, hr, setStep, modifySteps_getElem?_self, h]
  · intro e he
    by_cases hc : p.critical <;>
      simp [dispatchStep, he, hc, setStep, modifySteps_getElem?_self, h]

/-- C1 amended: for every step the worker dispatches, if `execute_step`
returns a `StepResult` — regardless of the result's own `status` field,
`error` and `timeout` included — the step's result is recorded and its
status set to `succeeded`; only when the dispatch raises (a contract
exception, or the registry lookup failing) is the step's error recorded
and its status set to `failed`. -/
theorem dispatch_records_outcome (registry : Registry) (p : PlanStep) (se : StepEnv)
    (i : Nat) (ts : TaskState) (s0 : StepRec) (h : ts.steps[i]? = some s0) :
    (∀ r, dispatchOutcome registry p se = .ok r →
      (dispatchStep registry p se i ts).1.steps[i]? =
        some { s0 with status := "succeeded", result := some r }) ∧
    (∀ e, dispatchOutcome registry p se = .error e →
      (dispatchStep registry p se i ts).1.steps[i]? =
        some { s0 with status := "failed", error := some e }) :=
  dispatchStep_record registry p se i ts s0 h

/-- A pending one-step task body used by several concrete runs. -/
def pendingOneStep (d : String) : TaskState :=
  { initTask "t0" "demo" "x" [] "low" with steps := [mkPendingStep d] }

/-- A `StepResult` that reports success. -/
def successResult : StepResult := { status := "success", message := "ok" }

/-- Witness for `dispatch_records_outcome`: a concrete registered step
whose agent returns `successResult` is recorded `succeeded`, and one whose
agent raises is recorded `failed`. -/
theorem dispatch_records_outcome_witness :
    (dispatchStep defaultRegistry
        { description := "run", agentType := "execution", requiresApproval := false,
          critical := false, parameters := [] }
        { cancelledBefore := false, approval := .approved, exec := .ok successResult }
        0 (pendingOneStep "run")).1.steps[0]? =
      some { mkPendingStep "run" with status := "succeeded", result := some successResult } ∧
    (dispatchStep defaultRegistry
        { description := "run", agentType := "execution", requiresApproval := false,
          critical := false, parameters := [] }
        { cancelledBefore := false, approval := .approved, exec := .error "boom" }
        0 (pendingOneStep "run")).1.steps[0]? =
      some { mkPendingStep "run" with status := "failed", error := some "boom" } :=
  ⟨(dispatch_records_outcome defaultRegistry _ _ 0 (pendingOneStep "run")
      (mkPendingStep "run") rfl).1 successResult (by simp [dispatchOutcome, defaultRegistry]),
   (dispatch_records_outcome defaultRegistry _ _ 0 (pendingOneStep "run")
      (mkPendingStep "run") rfl).2 "boom" (by simp [dispatchOutcome, defaultRegistry])⟩

/-- The result dict an agent returns for bad input (cf.
`ExecutionAgent.execute_step`, which returns `{"status": "error", ...}`
without raising). -/
def errStatusResult : StepResult :=
  { status := "error", message := "No script found for execution" }

/-- The single plan step of the C1 counterexample. -/
def c1Step : PlanStep :=
  { description := "run", agentType := "execution", requiresApproval := false,
    critical := false, parameters := [] }

/-- The one-step plan of the C1 counterexample. -/
def c1Plan : Plan := { taskId := "t1", summary := "plan", steps := [c1Step] }

/-- The C1 oracle: no cancellation, no approval needed, the agent
*returns* a `StepResult` whose `status` field is `error`. -/
def c1Env : WorkerEnv :=
  { planOutcome := .ok c1Plan,
    stepEnv := fun _ =>
      { cancelledBefore := false, approval := .approved, exec := .ok errStatusResult },
    learnError := none }

/-- C1 counterexample: the agent returns a `StepResult` with
`status = "error"` (bad input), yet the worker records the step as
`succeeded` with that result as payload and finishes the whole task as
`succeeded` — the claim says such a step must be recorded `failed` with
its error recorded.  The orchestrator's per-step handler only reacts to
raised exceptions; it never inspects the returned result's status. -/
theorem step_error_status_recorded_succeeded_counterexample :
    errStatusResult.status = "error" ∧
    (executeTask defaultRegistry c1Env (initTask "t1" "demo" "x" [] "low")).steps[0]? =
      some { description := "run", status := "succeeded",
             result := some errStatusResult, error := none } ∧
    (executeTask defaultRegistry c1Env (initTask "t1" "demo" "x" [] "low")).status =
      "succeeded" := by
  refine ⟨rfl, rfl, rfl⟩

/-- C7 amended: the orchestrator performs no registry validation before a
task starts executing; a step whose `agent_type` is not a registry key
fails at dispatch time — the lookup `self.agents[agent_type]` raises
KeyError inside the per-step `try`, so the step is recorded `failed` with
the KeyError text, i.e. the unknown agent type surfaces as a runtime
dispatch error during step execution, not as a planning-time error. -/
theorem unknown_agent_runtime_failure (registry : Registry) (p : PlanStep) (se : StepEnv)
    (i : Nat) (ts : TaskState) (s0 : StepRec)
    (hreg : p.agentType ∉ registry) (h : ts.steps[i]? = some s0) :
    dispatchOutcome registry p se = .error ("KeyError: " ++ p.agentType) ∧
    (dispatchStep registry p se i ts).1.steps[i]? =
      some { s0 with status := "failed", error := some ("KeyError: " ++ p.agentType) } := by
  have hd : dispatchOutcome registry p se = .error ("KeyError: " ++ p.agentType) := by
    simp [dispatchOutcome, hreg]
  exact ⟨hd, (dispatchStep_record registry p se i ts s0 h).2 _ hd⟩

/-- The unknown-agent plan step of the C7 counterexample. -/
def c7Step : PlanStep :=
  { description := "mystery", agentType := "bogus", requiresApproval := false,
    critical := true, parameters := [] }

/-- The one-step plan of the C7 counterexample. -/
def c7Plan : Plan := { taskId := "t7", summary := "plan", steps := [c7Step] }

/-- The C7 oracle: the agent itself would succeed, but it is never reached
because the registry lookup raises first. -/
def c7Env : WorkerEnv :=
  { planOutcome := .ok c7Plan,
    stepEnv := fun _ =>
      { cancelledBefore := false, approval := .approved, exec := .ok successResult },
    learnError := none }

/-- Witness for `unknown_agent_runtime_failure` at the concrete `c7Step`. -/
theorem unknown_agent_runtime_failure_witness :
    dispatchOutcome defaultRegistry c7Step
        { cancelledBefore := false, approval := .approved, exec := .ok successResult } =
      .error "KeyError: bogus" ∧
    (dispatchStep defaultRegistry c7Step
        { cancelledBefore := false, approval := .approved, exec := .ok successResult }
        0 (pendingOneStep "mystery")).1.steps[0]? =
      some { mkPendingStep "mystery" with
              status := "failed",
              error := some "KeyError: bogus" } :=
  unknown_agent_runtime_failure defaultRegistry c7Step _ 0 (pendingOneStep "mystery")
    (mkPendingStep "mystery") (by decide) rfl

/-- C7 counterexample: a plan step with the unregistered agent type
`bogus` is not rejected before execution — the task enters the step loop
and the unknown agent type surfaces as a runtime dispatch error: the step
is recorded `failed` with the KeyError text and (the step being critical)
the task fails, refuting the claim that an unknown agent type surfaces as
a fatal planning-time error and never as a runtime dispatch error. -/
theorem unknown_agent_dispatched_counterexample :
    (executeTask defaultRegistry c7Env (initTask "t7" "demo" "x" [] "low")).steps[0]? =
      some { description := "mystery", status := "failed", result := none,
             error := some "KeyError: bogus" } ∧
    (executeTask defaultRegistry c7Env (initTask "t7" "demo" "x" [] "low")).status =
      "failed" := by
  refine ⟨rfl, rfl⟩

/-- The empty plan of the C4 run: with no steps, the loop finishes with
the `success` flag intact and the task is finalized `succeeded` before the
learning agent is invoked. -/
def c4Plan : Plan := { taskId := "t4", summary := "empty", steps := [] }

/-- A benign step oracle (irrelevant: the plan has no steps). -/
def benignStepEnv : StepEnv :=
  { cancelledBefore := false, approval := .approved, exec := .ok successResult }

/-- The C4 oracle in which `learn_from_task` completes. -/
def c4EnvOk : WorkerEnv :=
  { planOutcome := .ok c4Plan, stepEnv := fun _ => benignStepEnv, learnError := none }

/-- The C4 oracle in which `learn_from_task` raises. -/
def c4EnvErr : WorkerEnv :=
  { planOutcome := .ok c4Plan, stepEnv := fun _ => benignStepEnv,
    learnError := some "learning agent exploded" }

/-- C4 counterexample: the identical run whose learning call completes
leaves the task `succeeded`; when `learn_from_task` raises instead, the
worker's top-level `except` records the exception and forces the status to
`failed` — the already-finalized `succeeded` status does not survive,
refuting the claim. -/
theorem learn_failure_counterexample :
    (executeTask defaultRegistry c4EnvOk (initTask "t4" "demo" "x" [] "low")).status =
      "succeeded" ∧
    (executeTask defaultRegistry c4EnvErr (initTask "t4" "demo" "x" [] "low")).status =
      "failed" ∧
    (executeTask defaultRegistry c4EnvErr (initTask "t4" "demo" "x" [] "low")).error =
      some "learning agent exploded" := by
  refine ⟨rfl, rfl, rfl⟩

/-- C4 amended: when the step loop finishes with the `success` flag set,
the task is finalized `succeeded`; if `learn_from_task` then raises, the
worker's top-level handler overwrites the finalized status with `failed`
and records the exception as the task error (so a learning failure does
alter the already-finalized status). -/
theorem learn_failure_overwrites_success (registry : Registry) (env : WorkerEnv)
    (plan : Plan) (ts0 tsF : TaskState)
    (hp : env.planOutcome = .ok plan)
    (hr : runSteps registry env.stepEnv plan.steps 0 (startedTask ts0 plan) true =
      .finished tsF true) :
    (env.learnError = none →
      executeTask registry env ts0 = { tsF with status := "succeeded" }) ∧
    (∀ e, env.learnError = some e →
      (executeTask registry env ts0).status = "failed" ∧
      (executeTask registry env ts0).error = some e) := by
  constructor
  · intro hl
    simp [executeTask, hp, hr, hl]
  · intro e hl
    constructor <;> simp [executeTask, hp, hr, hl]

/-- Witness for `learn_failure_overwrites_success` at the empty plan. -/
theorem learn_failure_overwrites_success_witness :
    (executeTask defaultRegistry c4EnvErr (initTask "t4" "demo" "x" [] "low")).status =
      "failed" ∧
    (executeTask defaultRegistry c4EnvErr (initTask "t4" "demo" "x" [] "low")).error =
      some "learning agent exploded" :=
  (learn_failure_overwrites_success defaultRegistry c4EnvErr c4Plan
    (initTask "t4" "demo" "x" [] "low")
    (startedTask (initTask "t4" "demo" "x" [] "low") c4Plan) rfl rfl).2 _ rfl

/-- The started task of a freshly created task exposes exactly the plan's
steps, all pending. -/
theorem startedTask_steps_initTask (id ty d prio : String)
    (params : List (String × PVal)) (plan : Plan) (j : Nat) :
    (startedTask (initTask id ty d params prio) plan).steps[j]? =
      (plan.steps[j]?).map (fun p => mkPendingStep p.description) := by
  simp [startedTask, appendPlanSteps, initTask]

/-- C5: if a plan's critical step at index `k` fails (its dispatch raises)
while every earlier step's dispatch returns, and the worker is neither
cancelled nor refused approval up to `k`, then the task created for that
plan ends with status `failed` and every step with index greater than `k`
is still `pending` with result and error unset. -/
theorem critical_failure_leaves_suffix_pending (registry : Registry) (env : WorkerEnv)
    (plan : Plan) (k : Nat) (pk : PlanStep) (e : String)
    (id ty d prio : String) (params : List (String × PVal))
    (hp : env.planOutcome = .ok plan)
    (hk : plan.steps[k]? = some pk)
    (hcrit : pk.critical = true)
    (hcancel : ∀ m, m ≤ k → (env.stepEnv m).cancelledBefore = false)
    (happr : ∀ m, m ≤ k → (env.stepEnv m).approval = .approved)
    (hpre : ∀ m p, m < k → plan.steps[m]? = some p →
      ∃ r, dispatchOutcome registry p (env.stepEnv m) = .ok r)
    (hfail : dispatchOutcome registry pk (env.stepEnv k) = .error e) :
    (executeTask registry env (initTask id ty d params prio)).status = "failed" ∧
    (∀ j, k < j → j < plan.steps.length →
      ∃ st, (executeTask registry env (initTask id ty d params prio)).steps[j]? =
          some st ∧
        st.status = "pending" ∧ st.result = none ∧ st.error = none) := by
  have hklen : k < plan.steps.length := by
    by_contra hlt
    push_neg at hlt
    rw [List.getElem?_eq_none hlt] at hk
    exact Option.noConfusion hk
  obtain ⟨ts1, heq, hsteps, hres⟩ := runSteps_prefix registry env.stepEnv k plan.steps 0
    (startedTask (initTask id ty d params prio) plan) true (le_of_lt hklen)
    (fun m hm => by simpa using hcancel m (le_of_lt hm))
    (fun m hm => by simpa using happr m (le_of_lt hm))
    (fun m p hm hq => by simpa using hpre m p hm hq)
  have hdrop : plan.steps.drop k = pk :: plan.steps.drop (k + 1) := by
    rw [List.drop_eq_getElem_cons hklen]
    congr 1
    have := List.getElem?_eq_getElem hklen
    rw [this] at hk
    exact Option.some_inj.mp hk
  have hrun : runSteps registry env.stepEnv plan.steps 0
      (startedTask (initTask id ty d params prio) plan) true =
      .finished (errStepState pk (0 + k) ts1 e) false := by
    rw [heq, hdrop, runSteps_cons_err_break registry env.stepEnv pk _ (0 + k) ts1 true e
      (by simpa using hcancel k le_rfl) (by simpa using happr k le_rfl)
      (by simpa using hfail) hcrit]
  constructor
  · simp [executeTask, hp, hrun]
  · intro j hj hjlen
    have h1 : (executeTask registry env (initTask id ty d params prio)).steps[j]? =
        (errStepState pk (0 + k) ts1 e).steps[j]? := by
      simp [executeTask, hp, hrun]
    rw [h1, errStepState_steps_ne _ _ _ _ _ (by omega), hsteps j (by omega),
      startedTask_steps_initTask, List.getElem?_eq_getElem hjlen]
    exact ⟨mkPendingStep plan.steps[j].description, rfl, rfl, rfl, rfl⟩

/-- The two-step plan of the C5 witness: step 0 is critical and its
dispatch raises; step 1 must stay pending. -/
def c5Plan : Plan :=
  { taskId := "t5", summary := "plan",
    steps := [
      { description := "first", agentType := "execution", requiresApproval := false,
        critical := true, parameters := [] },
      { description := "second", agentType := "validation", requiresApproval := false,
        critical := false, parameters := [] }] }

/-- The C5 oracle: no cancellation, no approval needed, every dispatch
raises `boom` (only step 0 is ever reached). -/
def c5Env : WorkerEnv :=
  { planOutcome := .ok c5Plan,
    stepEnv := fun _ =>
      { cancelledBefore := false, approval := .approved, exec := .error "boom" },
    learnError := none }

/-- Witness for `critical_failure_leaves_suffix_pending` at `c5Plan` with
`k = 0`. -/
theorem critical_failure_leaves_suffix_pending_witness :
    (executeTask defaultRegistry c5Env (initTask "t5" "demo" "x" [] "low")).status =
      "failed" ∧
    (∀ j, 0 < j → j < c5Plan.steps.length →
      ∃ st, (executeTask defaultRegistry c5Env (initTask "t5" "demo" "x" [] "low")).steps[j]? =
          some st ∧
        st.status = "pending" ∧ st.result = none ∧ st.error = none) :=
  critical_failure_leaves_suffix_pending defaultRegistry c5Env c5Plan 0
    { description := "first", agentType := "execution", requiresApproval := false,
      critical := true, parameters := [] }
    "boom" "t5" "demo" "x" "low" []
    rfl rfl rfl (fun _ _ => rfl) (fun _ _ => rfl)
    (fun m _ hm _ => absurd hm (Nat.not_lt_zero m))
    (by simp [dispatchOutcome, c5Env, defaultRegistry])

/-- C10: if the worker reaches a step that requires approval (every
earlier step observed no cancellation, was approved where needed, and its
dispatch returned) and the approval wait is resolved by cancellation, the
worker returns at once: the task ends `cancelled`, the approval-gated step
is left with status `executing` (never reset to pending, succeeded or
failed, and with result and error unset), every later step is untouched
(`pending`, nothing recorded), and the task-level result is unset.  After
the early return the worker never runs again and no store operation
touches step records, so these step states are final. -/
theorem cancel_during_approval_wait (registry : Registry) (env : WorkerEnv)
    (plan : Plan) (k : Nat) (pk : PlanStep)
    (id ty d prio : String) (params : List (String × PVal))
    (hp : env.planOutcome = .ok plan)
    (hk : plan.steps[k]? = some pk)
    (hgate : pk.requiresApproval = true)
    (hcancel : ∀ m, m ≤ k → (env.stepEnv m).cancelledBefore = false)
    (happr : ∀ m, m < k → (env.stepEnv m).approval = .approved)
    (hpre : ∀ m p, m < k → plan.steps[m]? = some p →
      ∃ r, dispatchOutcome registry p (env.stepEnv m) = .ok r)
    (hwait : (env.stepEnv k).approval = .cancelledDuringWait) :
    (executeTask registry env (initTask id ty d params prio)).status = "cancelled" ∧
    (executeTask registry env (initTask id ty d params prio)).steps[k]? =
      some { description := pk.description, status := "executing",
             result := none, error := none } ∧
    (∀ j, k < j → j < plan.steps.length →
      ∃ st, (executeTask registry env (initTask id ty d params prio)).steps[j]? =
          some st ∧
        st.status = "pending" ∧ st.result = none ∧ st.error = none) ∧
    (executeTask registry env (initTask id ty d params prio)).result = none := by
  have hklen : k < plan.steps.length := by
    by_contra hlt
    push_neg at hlt
    rw [List.getElem?_eq_none hlt] at hk
    exact Option.noConfusion hk
  obtain ⟨ts1, heq, hsteps, hres⟩ := runSteps_prefix registry env.stepEnv k plan.steps 0
    (startedTask (initTask id ty d params prio) plan) true (le_of_lt hklen)
    (fun m hm => by simpa using hcancel m (le_of_lt hm))
    (fun m hm => by simpa using happr m hm)
    (fun m p hm hq => by simpa using hpre m p hm hq)
  have hdrop : plan.steps.drop k = pk :: plan.steps.drop (k + 1) := by
    rw [List.drop_eq_getElem_cons hklen]
    congr 1
    have := List.getElem?_eq_getElem hklen
    rw [this] at hk
    exact Option.some_inj.mp hk
  have hrun : runSteps registry env.stepEnv plan.steps 0
      (startedTask (initTask id ty d params prio) plan) true =
      .cancelledReturn (waitCancelState (0 + k) ts1) := by
    rw [heq, hdrop, runSteps_cons_wait_cancelled registry env.stepEnv pk _ (0 + k) ts1 true
      (by simpa using hcancel k le_rfl) hgate (by simpa using hwait)]
  have hfin : executeTask registry env (initTask id ty d params prio) =
      waitCancelState (0 + k) ts1 := by
    simp [executeTask, hp, hrun]
  refine ⟨by rw [hfin]; rfl, ?_, ?_, ?_⟩
  · rw [hfin, Nat.zero_add]
    have hself : (waitCancelState k ts1).steps[k]? =
        (ts1.steps[k]?).map (fun s => { s with status := "executing" }) := by
      simp [waitCancelState, setStep, modifySteps_getElem?_self]
    have hbase : ts1.steps[k]? = some (mkPendingStep pk.description) := by
      rw [hsteps k (by omega), startedTask_steps_initTask]
      simp [hk]
    rw [hself, hbase]
    rfl
  · intro j hj hjlen
    rw [hfin]
    have hne : (waitCancelState (0 + k) ts1).steps[j]? = ts1.steps[j]? := by
      simp [waitCancelState, setStep]
      exact modifySteps_getElem?_ne _ _ _ _ (by omega)
    rw [hne, hsteps j (by omega), startedTask_steps_initTask,
      List.getElem?_eq_getElem hjlen]
    exact ⟨mkPendingStep plan.steps[j].description, rfl, rfl, rfl, rfl⟩
  · rw [hfin]
    have : (waitCancelState (0 + k) ts1).result = ts1.result := rfl
    rw [this, hres]
    rfl

/-- The two-step plan of the C10 witness: step 0 is approval-gated. -/
def c10Plan : Plan :=
  { taskId := "t10", summary := "plan",
    steps := [
      { description := "gate", agentType := "execution", requiresApproval := true,
        critical := true, parameters := [] },
      { description := "later", agentType := "validation", requiresApproval := false,
        critical := false, parameters := [] }] }

/-- The C10 oracle: no cancellation at loop heads, but the approval wait
is resolved by cancellation. -/
def c10Env : WorkerEnv :=
  { planOutcome := .ok c10Plan,
    stepEnv := fun _ =>
      { cancelledBefore := false, approval := .cancelledDuringWait,
        exec := .ok successResult },
    learnError := none }

/-- Witness for `cancel_during_approval_wait` at `c10Plan` with `k = 0`. -/
theorem cancel_during_approval_wait_witness :
    (executeTask defaultRegistry c10Env (initTask "t10" "demo" "x" [] "low")).status =
      "cancelled" ∧
    (executeTask defaultRegistry c10Env (initTask "t10" "demo" "x" [] "low")).steps[0]? =
      some { description := "gate", status := "executing",
             result := none, error := none } ∧
    (∀ j, 0 < j → j < c10Plan.steps.length →
      ∃ st, (executeTask defaultRegistry c10Env
            (initTask "t10" "demo" "x" [] "low")).steps[j]? = some st ∧
        st.status = "pending" ∧ st.result = none ∧ st.error = none) ∧
    (executeTask defaultRegistry c10Env (initTask "t10" "demo" "x" [] "low")).result =
      none :=
  cancel_during_approval_wait defaultRegistry c10Env c10Plan 0
    { description := "gate", agentType := "execution", requiresApproval := true,
      critical := true, parameters := [] }
    "t10" "demo" "x" "low" []
    rfl rfl rfl (fun _ _ => rfl)
    (fun m hm => absurd hm (Nat.not_lt_zero m))
    (fun m _ hm _ => absurd hm (Nat.not_lt_zero m))
    rfl

/-! ### The planner fallback (`TaskPlanner.create_plan`, claim C6) -/

/-- The planner configuration consulted by `create_plan`: the
`default_checks` list (Python truthiness: non-empty means enabled). -/
structure PlannerConfig where
  defaultChecks : List String

/-- The fallback plan built in the `except` branch of
`TaskPlanner.create_plan`: one critical, approval-required execute step
carrying the task's parameters, then one non-critical, no-approval
validation step. -/
def fallbackPlan (task : TaskState) : Plan :=
  { taskId := task.id,
    summary := "Basic plan for " ++ task.ttype ++ " (fallback due to planning error)",
    steps := [
      { description := "Execute " ++ task.ttype ++ " operation",
        agentType := "execution", requiresApproval := true, critical := true,
        parameters := task.parameters },
      { description := "Verify " ++ task.ttype ++ " operation result",
        agentType := "validation", requiresApproval := false, critical := false,
        parameters := [] }] }

/-- `TaskPlanner._add_default_checks`: appends the configured validation /
diagnostics steps to a successfully generated plan. -/
def addDefaultChecks (cfg : PlannerConfig) (plan : Plan) : Plan :=
  let s1 := if "syntax_validation" ∈ cfg.defaultChecks then
      [({ description := "Perform syntax validation on executed commands",
          agentType := "validation", requiresApproval := false, critical := false,
          parameters := [("type", "syntax")] } : PlanStep)]
    else []
  let s2 := if "security_scan" ∈ cfg.defaultChecks then
      [({ description := "Perform security scan on changes",
          agentType := "validation", requiresApproval := false, critical := true,
          parameters := [("type", "security")] } : PlanStep)]
    else []
  let s3 := if "impact_assessment" ∈ cfg.defaultChecks then
      [({ description := "Assess impact of changes",
          agentType := "diagnostics", requiresApproval := false, critical := false,
          parameters := [("type", "impact")] } : PlanStep)]
    else []
  { plan with steps := plan.steps ++ s1 ++ s2 ++ s3 }

/-- `TaskPlanner.create_plan`: the whole body is wrapped in
`try`/`except Exception`.  `llm` is the outcome of the LLM call plus
parsing: `Except.error` means anything in the `try` raised.  On success
the parsed plan gets the task's id and the configured default checks; on
any exception the fallback plan is returned — the function is total, so a
planner failure never propagates to the caller. -/
def create_plan (cfg : PlannerConfig) (task : TaskState)
    (llm : Except String Plan) : Plan :=
  match llm with
  | .ok p =>
    let pd := { p with taskId := task.id }
    if cfg.defaultChecks.isEmpty then pd else addDefaultChecks cfg pd
  | .error _ => fallbackPlan task

/-- C6: whenever plan generation raises, `create_plan` returns the
fallback plan (never propagating the exception — it is total): exactly two
steps, the first a critical, approval-required `execution` step whose
parameters are the task's own parameters, the second a non-critical,
no-approval `validation` step; and a worker running that plan still drives
the task to a terminal status, whatever the oracle does. -/
theorem planner_failure_fallback (cfg : PlannerConfig) (task : TaskState) (e : String) :
    create_plan cfg task (.error e) = fallbackPlan task ∧
    (∃ s1 s2, (fallbackPlan task).steps = [s1, s2] ∧
      s1.critical = true ∧ s1.requiresApproval = true ∧
      s1.agentType = "execution" ∧ s1.parameters = task.parameters ∧
      s2.critical = false ∧ s2.requiresApproval = false ∧
      s2.agentType = "validation") ∧
    (∀ (registry : Registry) (env : WorkerEnv) (ts0 : TaskState),
      env.planOutcome = .ok (create_plan cfg task (.error e)) →
      (executeTask registry env ts0).status ∈
        (["succeeded", "failed", "cancelled"] : List String)) := by
  refine ⟨rfl, ⟨_, _, rfl, rfl, rfl, rfl, rfl, rfl, rfl, rfl⟩,
    fun registry env ts0 _ => executeTask_terminal registry env ts0⟩

/-- Witness for `planner_failure_fallback`: the fallback for a concrete
task, run under an oracle that approves the gated step and whose agent
succeeds, ends in a terminal status. -/
theorem planner_failure_fallback_witness :
    create_plan { defaultChecks := [] } (initTask "t6" "restart" "x" [("host", "h1")] "low")
        (.error "LLM unavailable") =
      fallbackPlan (initTask "t6" "restart" "x" [("host", "h1")] "low") ∧
    (executeTask defaultRegistry
        { planOutcome := .ok (create_plan { defaultChecks := [] }
            (initTask "t6" "restart" "x" [("host", "h1")] "low") (.error "LLM unavailable")),
          stepEnv := fun _ => benignStepEnv, learnError := none }
        (initTask "t6" "restart" "x" [("host", "h1")] "low")).status ∈
      (["succeeded", "failed", "cancelled"] : List String) :=
  ⟨(planner_failure_fallback { defaultChecks := [] }
      (initTask "t6" "restart" "x" [("host", "h1")] "low") "LLM unavailable").1,
   (planner_failure_fallback { defaultChecks := [] }
      (initTask "t6" "restart" "x" [("host", "h1")] "low") "LLM unavailable").2.2
      defaultRegistry _ _ rfl⟩

/-! ### Plan-reuse similarity (`TaskManagerAgent`, claim C9) -/

/-- The key set of a parameter dict. -/
def keyFinset (p : List (String × PVal)) : Finset String :=
  (p.map Prod.fst).toFinset

/-- `TaskManagerAgent._parameter_similarity`, in exact arithmetic: 1.0
when both dicts are empty, 0.0 when exactly one is, 0.0 when no key is
shared, otherwise `0.6 * |shared| / |union| + 0.4 * matches / |shared|`
where `matches` counts the shared keys whose values are equal.  The Python
literals 0.6, 0.4 and 0.8 are exactly representable in binary-free
rational arithmetic as written here. -/
def parameterSimilarity (p1 p2 : List (String × PVal)) : ℚ :=
  if p1.isEmpty && p2.isEmpty then 1
  else if p1.isEmpty || p2.isEmpty then 0
  else
    let shared := keyFinset p1 ∩ keyFinset p2
    let allKeys := keyFinset p1 ∪ keyFinset p2
    if shared = ∅ then 0
    else
      let valueMatches := (shared.filter (fun k => p1.lookup k = p2.lookup k)).card
      (6 / 10 : ℚ) * ((shared.card : ℚ) / (allKeys.card : ℚ)) +
        (4 / 10 : ℚ) * ((valueMatches : ℚ) / (shared.card : ℚ))

/-- The per-candidate reuse test in `TaskManagerAgent.plan_task` (line 91):
same type, previously succeeded, and similarity *strictly greater* than
0.8.  (The surrounding code additionally requires the candidate to be
returned by the knowledge base and the `reuse_similar_plans` config flag,
which default to enabled; they do not affect the threshold.) -/
def eligibleForReuse (task similar : TaskState) : Bool :=
  similar.ttype == task.ttype && similar.status == "succeeded" &&
    decide (parameterSimilarity task.parameters similar.parameters > 8 / 10)

/-- Parameters sharing both keys with one value of two equal. -/
def c9p1 : List (String × PVal) := [("a", "x"), ("b", "y")]

/-- See `c9p1`. -/
def c9p2 : List (String × PVal) := [("a", "x"), ("b", "z")]

/-- The current task of the C9 counterexample. -/
def c9Task : TaskState := initTask "t9a" "demo" "d" c9p1 "low"

/-- A prior task of the same type that succeeded. -/
def c9Similar : TaskState :=
  { initTask "t9b" "demo" "d" c9p2 "low" with status := "succeeded" }

/-- C9 counterexample: for `c9p1`/`c9p2` the similarity score is exactly
0.8 (full key overlap, half the values equal: 0.6 + 0.4/2), the prior task
has the same type and status `succeeded`, yet it is *not* eligible for
reuse — the code tests `similarity > 0.8`, not `≥ 0.8` as claimed. -/
theorem similarity_threshold_counterexample :
    parameterSimilarity c9p1 c9p2 = 8 / 10 ∧
    c9Task.parameters = c9p1 ∧ c9Similar.parameters = c9p2 ∧
    c9Similar.ttype = c9Task.ttype ∧ c9Similar.status = "succeeded" ∧
    eligibleForReuse c9Task c9Similar = false := by
  have h1 : (keyFinset c9p1 ∩ keyFinset c9p2).card = 2 := by decide
  have h2 : (keyFinset c9p1 ∪ keyFinset c9p2).card = 2 := by decide
  have h3 : ((keyFinset c9p1 ∩ keyFinset c9p2).filter
      (fun k => c9p1.lookup k = c9p2.lookup k)).card = 1 := by decide
  have hsim : parameterSimilarity c9p1 c9p2 = 8 / 10 := by
    simp only [parameterSimilarity]
    rw [if_neg (by decide), if_neg (by decide), if_neg (by decide)]
    rw [h1, h2, h3]
    norm_num
  have hnot : ¬ parameterSimilarity c9p1 c9p2 > 8 / 10 := by
    rw [hsim]
    exact lt_irrefl _
  refine ⟨hsim, rfl, rfl, rfl, rfl, ?_⟩
  simp [eligibleForReuse, c9Task, c9Similar, initTask, hnot]

/-- C9 amended: for two non-empty parameter dicts the score equals
`0.6 * |shared keys| / |all keys| + 0.4 * (equal-valued shared keys) /
|shared keys|` (the value term read as 0 when no key is shared, matching
the code's early return); and a prior task is eligible for reuse exactly
when it has the same type, status `succeeded`, and the score is *strictly
greater* than 0.8. -/
theorem parameterSimilarity_spec :
    (∀ p1 p2 : List (String × PVal), p1 ≠ [] → p2 ≠ [] →
      parameterSimilarity p1 p2 =
        (6 / 10 : ℚ) * (((keyFinset p1 ∩ keyFinset p2).card : ℚ) /
            ((keyFinset p1 ∪ keyFinset p2).card : ℚ)) +
          (4 / 10 : ℚ) * ((((keyFinset p1 ∩ keyFinset p2).filter
              (fun k => p1.lookup k = p2.lookup k)).card : ℚ) /
            ((keyFinset p1 ∩ keyFinset p2).card : ℚ))) ∧
    (∀ task similar : TaskState, eligibleForReuse task similar = true ↔
      (similar.ttype = task.ttype ∧ similar.status = "succeeded" ∧
        parameterSimilarity task.parameters similar.parameters > 8 / 10)) := by
  constructor
  · intro p1 p2 h1 h2
    have e1 : p1.isEmpty = false := by
      cases p1
      · exact absurd rfl h1
      · rfl
    have e2 : p2.isEmpty = false := by
      cases p2
      · exact absurd rfl h2
      · rfl
    simp only [parameterSimilarity]
    rw [if_neg (by simp [e1]), if_neg (by simp [e1, e2])]
    by_cases hsh : keyFinset p1 ∩ keyFinset p2 = ∅
    · rw [if_pos hsh, hsh]
      simp
    · rw [if_neg hsh]
  · intro task similar
    simp [eligibleForReuse, Bool.and_eq_true, beq_iff_eq, and_assoc]

/-- Witness for `parameterSimilarity_spec` at the concrete `c9p1`/`c9p2`
and `c9Task`/`c9Similar`. -/
theorem parameterSimilarity_spec_witness :
    parameterSimilarity c9p1 c9p2 =
      (6 / 10 : ℚ) * (((keyFinset c9p1 ∩ keyFinset c9p2).card : ℚ) /
          ((keyFinset c9p1 ∪ keyFinset c9p2).card : ℚ)) +
        (4 / 10 : ℚ) * ((((keyFinset c9p1 ∩ keyFinset c9p2).filter
            (fun k => c9p1.lookup k = c9p2.lookup k)).card : ℚ) /
          ((keyFinset c9p1 ∩ keyFinset c9p2).card : ℚ)) ∧
    (eligibleForReuse c9Task c9Similar = true ↔
      (c9Similar.ttype = c9Task.ttype ∧ c9Similar.status = "succeeded" ∧
        parameterSimilarity c9Task.parameters c9Similar.parameters > 8 / 10)) :=
  ⟨parameterSimilarity_spec.1 c9p1 c9p2 (by decide) (by decide),
   parameterSimilarity_spec.2 c9Task c9Similar⟩

end ITAdmin
